import Mathlib

/-!
Shallow embedding of the renamer tool (src/main.rs), an interactive batch
file-renaming program.  Paths that survived `to_str().unwrap()` are modelled
as `String`; raw filesystem paths (which may not be valid UTF-8) as `OsPath`;
the external regex crate's compiled regex as a record of the three
capabilities the program uses; the filesystem as the list of existing file
paths.  Rust's `str::replace` and `str::ends_with` are re-implemented over
character lists so that every definition evaluates inside the kernel.
-/

namespace Renamer

/-- Model of a compiled regex from the external `regex` crate, reduced to the
three capabilities the program uses: `is_match`, `replace_all` (haystack
first, then the replacement string) and the length of `capture_names()`
(which counts the implicit whole-match group 0). -/
structure Regex where
  is_match : String → Bool
  replace_all : String → String → String
  capture_names_len : Nat

/-- Contract of the external regex engine relied on by the program: a
haystack with no match is returned unchanged by `replace_all`. -/
def Regex.Wf (r : Regex) : Prop :=
  ∀ haystack rep, r.is_match haystack = false → r.replace_all haystack rep = haystack

/-- Fuel-driven core of `rust_replace`; the fuel is the haystack length, and
every step consumes at least one character when the pattern is nonempty. -/
def replace_go : Nat → List Char → List Char → List Char → List Char
  | 0, s, _, _ => s
  | _, [], _, _ => []
  | fuel + 1, c :: rest, pat, rep =>
    if pat.isPrefixOf (c :: rest) then
      rep ++ replace_go fuel (List.drop pat.length (c :: rest)) pat rep
    else
      c :: replace_go fuel rest pat rep

/-- Model of Rust `str::replace`: replace every leftmost non-overlapping
occurrence of `pat` in `s` by `rep`; an empty pattern matches at every
character boundary. -/
def rust_replace (s pat rep : String) : String :=
  if pat.data = [] then
    ⟨rep.data ++ (s.data.map (fun c => c :: rep.data)).flatten⟩
  else
    ⟨replace_go s.data.length s.data pat.data rep.data⟩

/-- Model of Rust `str::ends_with` for string suffixes. -/
def rust_ends_with (s suffix : String) : Bool :=
  suffix.data.isSuffixOf s.data

/-- Errors produced by `get_renamer_regex` (src/main.rs:81-95); the source
carries them as formatted strings, modelled here as tags. -/
inductive RenamerError where
  | invalid_pattern (msg : String)
  | no_capture_group
  | too_many_capture_groups
deriving DecidableEq

/-- get_matcher_regex (src/main.rs:70-78): append a `$` end-anchor to the
selection pattern unless it already ends with one, then hand the string to
the regex compiler (`Regex::new`, abstracted as `compile`). -/
def get_matcher_regex (compile : String → Except String Regex)
    (matcher_string : String) : Except String Regex :=
  let matcher_string_temp :=
    if rust_ends_with matcher_string "$" then matcher_string
    else matcher_string ++ "$"
  compile matcher_string_temp

/-- get_renamer_regex (src/main.rs:81-95): compile the transformation
pattern, then reject it when `capture_names().len()` is 1 (no explicit
capture group beside the implicit group 0) or greater than 2 (more than one
explicit capture group). -/
def get_renamer_regex (compile : String → Except String Regex)
    (renamer_string : String) : Except RenamerError Regex :=
  match compile renamer_string with
  | Except.error err => Except.error (RenamerError.invalid_pattern err)
  | Except.ok regex =>
    if regex.capture_names_len = 1 then
      Except.error RenamerError.no_capture_group
    else if regex.capture_names_len > 2 then
      Except.error RenamerError.too_many_capture_groups
    else
      Except.ok regex

/-- A raw filesystem path as yielded by the glob iterator: either valid
UTF-8 or not (`to_str()` returns None on the latter). -/
inductive OsPath where
  | utf8 (s : String)
  | non_utf8 (tag : Nat)
deriving DecidableEq

/-- Model of `OsStr::to_str`: `some` exactly on valid UTF-8 paths. -/
def OsPath.to_str : OsPath → Option String
  | OsPath.utf8 s => some s
  | OsPath.non_utf8 _ => none

/-- True when an enumerated entry cannot make `to_str().unwrap()` panic:
either it is an Err entry (dropped before the unwrap) or its path is valid
UTF-8. -/
def entry_utf8_ok : Except String OsPath → Bool
  | Except.ok p => p.to_str.isSome
  | Except.error _ => true

/-- The error message an entry contributes to the stderr channel, if any. -/
def entry_error : Except String OsPath → Option String
  | Except.error e => some e
  | Except.ok _ => none

/-- The matched path an entry contributes to the output, if any. -/
def entry_match (r : Regex) : Except String OsPath → Option OsPath
  | Except.ok (OsPath.utf8 s) => if r.is_match s then some (OsPath.utf8 s) else none
  | Except.ok (OsPath.non_utf8 _) => none
  | Except.error _ => none

/-- get_matched_paths (src/main.rs:40-67): filter the enumerated entries
through the matcher regex.  Err entries are printed to stderr and dropped;
each Ok entry first goes through `to_str().unwrap()`, which panics (modelled
as `Except.error`) when the path is not valid UTF-8.  Returns the matched
paths together with the error messages reported to stderr. -/
def get_matched_paths (entries : List (Except String OsPath))
    (matcher_regex : Regex) : Except String (List OsPath × List String) :=
  match entries with
  | [] => Except.ok ([], [])
  | Except.error err :: rest =>
    match get_matched_paths rest matcher_regex with
    | Except.ok (ps, errs) => Except.ok (ps, err :: errs)
    | Except.error e => Except.error e
  | Except.ok path :: rest =>
    match path.to_str with
    | none => Except.error "to_str returned None for a non UTF-8 path"
    | some path_string =>
      match get_matched_paths rest matcher_regex with
      | Except.ok (ps, errs) =>
        Except.ok ((if matcher_regex.is_match path_string then path :: ps else ps), errs)
      | Except.error e => Except.error e

/-- True when `get_matched_paths` panics instead of returning a list. -/
def aborts : Except String (List OsPath × List String) → Bool
  | Except.error _ => true
  | Except.ok _ => false

/-- get_change_pairs (src/main.rs:116-133): takes the found paths, the base
path, the (renamer) regex and the replacement string and returns a list of
start -> end.  The relative form is `path_str.replace(&base_path, "")`,
which deletes every occurrence of the base path, and the destination is the
base path prepended to the `replace_all` result.  `to_str().unwrap()` is the
identity here because model paths are valid UTF-8, and
`PathBuf::from_str(...).unwrap()` is infallible. -/
def get_change_pairs (paths : List String) (base_path : String)
    (matcher_regex : Regex) (replacement_string : String) :
    List (String × String) :=
  paths.map fun path =>
    let path_str := rust_replace path base_path ""
    let result := matcher_regex.replace_all path_str replacement_string
    (path, base_path ++ result)

/-- Modelled from the claim wording of C1: the relative string is obtained
by stripping the Root prefix once (instead of deleting every occurrence of
Root as `get_change_pairs` does); kept for comparison only. -/
def strip_root_once (path base : String) : String :=
  if base.data.isPrefixOf path.data then String.mk (path.data.drop base.data.length)
  else path

/-- Modelled from the claim wording of C1: destination computed from the
prefix-stripped relative string; to be compared with `get_change_pairs`. -/
def get_change_pairs_spec (paths : List String) (base_path : String)
    (matcher_regex : Regex) (replacement_string : String) :
    List (String × String) :=
  paths.map fun path =>
    let path_str := strip_root_once path base_path
    let result := matcher_regex.replace_all path_str replacement_string
    (path, base_path ++ result)

/-- Per-pair outcome reported by the apply loop (printed in the source). -/
inductive FileOutcome where
  | already_exists (dest : String)
  | renamed_ok
  | rename_failed (err : String)
deriving DecidableEq

/-- Model of `std::fs::rename` on the file-list filesystem: fails when the
source does not exist, otherwise moves the source entry to the destination.
(The destination-exists case never arises in `apply_step`, which guards the
call.) -/
def rename_fs (fs : List String) (source_file dest_file : String) :
    Except String (List String) :=
  if source_file ∈ fs then Except.ok (fs.erase source_file ++ [dest_file])
  else Except.error "No such file or directory"

/-- One iteration of the apply loop (src/main.rs:136-147): skip the pair when
the destination exists at this moment, otherwise attempt the rename; a failed
rename leaves the filesystem unchanged. -/
def apply_step (fs : List String) (change : String × String) :
    List String × FileOutcome :=
  if change.2 ∈ fs then (fs, FileOutcome.already_exists change.2)
  else
    match rename_fs fs change.1 change.2 with
    | Except.ok fs2 => (fs2, FileOutcome.renamed_ok)
    | Except.error err => (fs, FileOutcome.rename_failed err)

/-- apply_changes (src/main.rs:135-150): process every pair in order,
threading the filesystem through; returns the final filesystem and the
per-pair outcomes.  (The source additionally returns the constant `false`,
which the caller discards.) -/
def apply_changes (fs : List String) (changes : List (String × String)) :
    List String × List FileOutcome :=
  match changes with
  | [] => (fs, [])
  | change :: rest =>
    let step := apply_step fs change
    let next := apply_changes step.1 rest
    (next.1, step.2 :: next.2)

/-- Rows added to the preview table in main (src/main.rs:262-281): one row
per change pair with `base_path` prepended to both components.  The session
configuration's `show_unchanged` flag is in scope there but never consulted
when building the rows, so it is threaded through unused. -/
def preview_rows (show_unchanged : Bool) (base_path : String)
    (changes : List (String × String)) : List (String × String) :=
  changes.map fun change => (base_path ++ change.1, base_path ++ change.2)

/-- A concrete regex value that matches nothing; its `replace_all` is the
identity on the haystack, as the engine contract requires. -/
def never_match : Regex :=
  { is_match := fun _ => false
    replace_all := fun haystack _ => haystack
    capture_names_len := 2 }

/-- A concrete regex value that matches everything (used only where matching
behaviour, not replacement, is exercised). -/
def match_all : Regex :=
  { is_match := fun _ => true
    replace_all := fun haystack _ => haystack
    capture_names_len := 2 }

/-- A family of concrete regex values whose `capture_names()` length is `n`,
standing in for compiled patterns with `n - 1` explicit capture groups. -/
def regex_groups (n : Nat) : Regex :=
  { is_match := fun _ => false
    replace_all := fun haystack _ => haystack
    capture_names_len := n }

end Renamer

namespace Renamer

/-- C1 (counterexample): at base path "/p" and source path "/p/p/x" (the Root
string occurs twice in the path), the planner deletes every occurrence of the
Root string, so its destination "/p/x" differs from the destination
"/p/p/x" computed by the claim's strip-the-prefix reading; the transformation
regex matches nothing, so the regex step is the identity on both sides. -/
theorem c1_strip_vs_delete_counterexample :
    get_change_pairs ["/p/p/x"] "/p" never_match "z" = [("/p/p/x", "/p/x")] ∧
    get_change_pairs_spec ["/p/p/x"] "/p" never_match "z" = [("/p/p/x", "/p/p/x")] ∧
    get_change_pairs ["/p/p/x"] "/p" never_match "z" ≠
      get_change_pairs_spec ["/p/p/x"] "/p" never_match "z" := by
  refine ⟨by decide, by decide, by decide⟩

/-- C1 (amended): for every matched source path, the planner's pair has the
original path as its source, and as its destination the base path prepended
to the `replace_all` image of the relative string obtained by deleting every
occurrence of the base path from the source path (not by stripping the
prefix once); pairs appear in input order. -/
theorem c1_dest_from_root_deletion (paths : List String) (base : String)
    (r : Regex) (repl : String) (i : Nat) :
    (get_change_pairs paths base r repl)[i]? =
      (paths[i]?).map
        (fun path => (path, base ++ r.replace_all (rust_replace path base "") repl)) := by
  simp [get_change_pairs, List.getElem?_map]

/-- C6 (code evaluated at the failing input): with `show_unchanged = false`
and a change list containing the unchanged pair ("/p/a.jpeg", "/p/a.jpeg"),
the preview still displays a row for that pair, and the displayed rows are
identical to those displayed with `show_unchanged = true`: the flag never
filters the preview. -/
theorem c6_show_unchanged_ignored :
    preview_rows false "/p" [("/p/a.jpeg", "/p/a.jpeg"), ("/p/b.jpeg", "/p/b.jpg")] =
      [("/p/p/a.jpeg", "/p/p/a.jpeg"), ("/p/p/b.jpeg", "/p/p/b.jpg")] ∧
    preview_rows false "/p" [("/p/a.jpeg", "/p/a.jpeg"), ("/p/b.jpeg", "/p/b.jpg")] =
      preview_rows true "/p" [("/p/a.jpeg", "/p/a.jpeg"), ("/p/b.jpeg", "/p/b.jpg")] := by
  refine ⟨by decide, by decide⟩

/-- C9: the planner is a pure function of its four inputs; two runs on equal
matched-path lists, base paths, compiled transformation patterns and
replacement literals return equal change-pair lists. -/
theorem c9_planner_deterministic (paths₁ paths₂ : List String)
    (base₁ base₂ : String) (r₁ r₂ : Regex) (repl₁ repl₂ : String)
    (hp : paths₁ = paths₂) (hb : base₁ = base₂) (hr : r₁ = r₂)
    (hrepl : repl₁ = repl₂) :
    get_change_pairs paths₁ base₁ r₁ repl₁ =
      get_change_pairs paths₂ base₂ r₂ repl₂ := by
  subst hp; subst hb; subst hr; subst hrepl; rfl

/-- C9 (witness): the determinism theorem applied at a concrete input. -/
theorem c9_planner_deterministic_witness :
    get_change_pairs ["/p/a.jpeg"] "/p" never_match "jpg" =
      get_change_pairs ["/p/a.jpeg"] "/p" never_match "jpg" :=
  c9_planner_deterministic ["/p/a.jpeg"] ["/p/a.jpeg"] "/p" "/p" never_match
    never_match "jpg" "jpg" rfl rfl rfl rfl

/-- C10: the planner returns exactly one change pair per input path, in input
order, and the source component of the i-th pair is the i-th input path
unchanged. -/
theorem c10_one_pair_per_path (paths : List String) (base : String)
    (r : Regex) (repl : String) :
    (get_change_pairs paths base r repl).length = paths.length ∧
    ∀ i : Nat, ((get_change_pairs paths base r repl)[i]?).map Prod.fst = paths[i]? := by
  constructor
  · simp [get_change_pairs]
  · intro i
    simp [get_change_pairs, List.getElem?_map, Option.map_map]
    cases paths[i]? <;> rfl

end Renamer

namespace Renamer

/-- Helper: any string with `suffix` appended ends with `suffix`. -/
theorem rust_ends_with_append_self (s suffix : String) :
    rust_ends_with (s ++ suffix) suffix = true := by
  unfold rust_ends_with
  rw [String.data_append]
  simp [List.isSuffixOf, List.reverse_append]

/-- C2: for every transformation-pattern string that compiles to a regex
with g explicit capture groups (so `capture_names().len()` is g + 1,
counting the implicit group 0): g = 0 fails with the no-capture-group error,
g ≥ 2 fails with the too-many-groups error, and g = 1 succeeds, returning
the compiled regex. -/
theorem c2_capture_group_arity (compile : String → Except String Regex)
    (s : String) (r : Regex) (g : Nat)
    (hc : compile s = Except.ok r) (hg : r.capture_names_len = g + 1) :
    (g = 0 → get_renamer_regex compile s = Except.error RenamerError.no_capture_group) ∧
    (2 ≤ g → get_renamer_regex compile s = Except.error RenamerError.too_many_capture_groups) ∧
    (g = 1 → get_renamer_regex compile s = Except.ok r) := by
  unfold get_renamer_regex
  rw [hc]
  dsimp only
  rw [hg]
  refine ⟨?_, ?_, ?_⟩
  · intro h0; subst h0; norm_num
  · intro h2
    rw [if_neg (by omega), if_pos (by omega)]
  · intro h1; subst h1
    rw [if_neg (by omega), if_neg (by omega)]

/-- C2 (witness): the arity check exercised on concrete compilers producing
regexes with zero, two and one explicit capture groups. -/
theorem c2_capture_group_arity_witness :
    get_renamer_regex (fun _ => Except.ok (regex_groups 1)) "jpeg" =
      Except.error RenamerError.no_capture_group ∧
    get_renamer_regex (fun _ => Except.ok (regex_groups 3)) "(a)(b)" =
      Except.error RenamerError.too_many_capture_groups ∧
    get_renamer_regex (fun _ => Except.ok (regex_groups 2)) "(jpeg)" =
      Except.ok (regex_groups 2) :=
  ⟨(c2_capture_group_arity _ "jpeg" (regex_groups 1) 0 rfl rfl).1 rfl,
   (c2_capture_group_arity _ "(a)(b)" (regex_groups 3) 2 rfl rfl).2.1 (by decide),
   (c2_capture_group_arity _ "(jpeg)" (regex_groups 2) 1 rfl rfl).2.2 rfl⟩

/-- C5: a selection-pattern string not ending in the end-anchor character
`$` is compiled exactly as the same string with `$` appended (same string
reaches the regex compiler, hence the same compilation result and the same
matched set), while a string already ending in `$` is compiled as-is. -/
theorem c5_anchor_appended (compile : String → Except String Regex) (s : String) :
    (rust_ends_with s "$" = false →
      get_matcher_regex compile s = compile (s ++ "$") ∧
      get_matcher_regex compile s = get_matcher_regex compile (s ++ "$")) ∧
    (rust_ends_with s "$" = true → get_matcher_regex compile s = compile s) := by
  have hd : rust_ends_with (s ++ "$") "$" = true :=
    rust_ends_with_append_self s "$"
  constructor
  · intro h
    constructor
    · simp [get_matcher_regex, h]
    · simp [get_matcher_regex, h, hd]
  · intro h
    simp [get_matcher_regex, h]

/-- C5 (witness): the anchoring behaviour at the default selection pattern
and at its explicitly anchored form, with the compiler instantiated as the
echo function so that the compiled string is observable. -/
theorem c5_anchor_appended_witness :
    rust_ends_with ".*\\.jpeg" "$" = false ∧
    get_matcher_regex Except.error ".*\\.jpeg" = Except.error (".*\\.jpeg" ++ "$") ∧
    get_matcher_regex Except.error ".*\\.jpeg" =
      get_matcher_regex Except.error (".*\\.jpeg" ++ "$") ∧
    rust_ends_with ".*\\.jpeg$" "$" = true ∧
    get_matcher_regex Except.error ".*\\.jpeg$" = Except.error ".*\\.jpeg$" := by
  refine ⟨by decide, ((c5_anchor_appended Except.error ".*\\.jpeg").1 (by decide)).1,
    ((c5_anchor_appended Except.error ".*\\.jpeg").1 (by decide)).2, by decide,
    (c5_anchor_appended Except.error ".*\\.jpeg$").2 (by decide)⟩

end Renamer

namespace Renamer

/-- C3 (counterexample): on the filesystem containing /r/a and /r/b, running
the engine on the pairs (/r/b to /r/c) then (/r/a to /r/b) renames both
pairs: the second pair's destination /r/b existed before Apply, yet the
engine reports renamed-ok for it (the first rename moved /r/b away), so
"destination exists before Apply" does not imply "no rename for that pair". -/
theorem c3_pre_apply_exists_counterexample :
    "/r/b" ∈ (["/r/a", "/r/b"] : List String) ∧
    (apply_changes ["/r/a", "/r/b"] [("/r/b", "/r/c"), ("/r/a", "/r/b")]).2 =
      [FileOutcome.renamed_ok, FileOutcome.renamed_ok] ∧
    (apply_changes ["/r/a", "/r/b"] [("/r/b", "/r/c"), ("/r/a", "/r/b")]).1 =
      ["/r/c", "/r/b"] := by
  refine ⟨by decide, by decide, by decide⟩

/-- C3 (amended): for every change pair whose destination exists on the
filesystem at the moment the pair is processed, the engine performs no
rename or delete for that pair (the filesystem is unchanged by it) and
reports the already-exists outcome; processing continues with the rest. -/
theorem c3_skip_existing_dest (fs : List String) (p : String × String)
    (rest : List (String × String)) (h : p.2 ∈ fs) :
    apply_changes fs (p :: rest) =
      ((apply_changes fs rest).1,
        FileOutcome.already_exists p.2 :: (apply_changes fs rest).2) := by
  have hstep : apply_step fs p = (fs, FileOutcome.already_exists p.2) := by
    unfold apply_step
    rw [if_pos h]
  simp [apply_changes, hstep]

/-- C3 (witness): applying the single pair (/r/a to /r/b) on a filesystem
where /r/b already exists leaves the filesystem unchanged and reports
already-exists. -/
theorem c3_skip_existing_dest_witness :
    "/r/b" ∈ (["/r/a", "/r/b"] : List String) ∧
    apply_changes ["/r/a", "/r/b"] [("/r/a", "/r/b")] =
      (["/r/a", "/r/b"], [FileOutcome.already_exists "/r/b"]) := by
  have h := c3_skip_existing_dest ["/r/a", "/r/b"] ("/r/a", "/r/b") [] (by decide)
  exact ⟨by decide, by rw [h]; decide⟩

/-- Helper: the engine reports exactly one outcome per change pair. -/
theorem apply_changes_length (fs : List String) (changes : List (String × String)) :
    (apply_changes fs changes).2.length = changes.length := by
  induction changes generalizing fs with
  | nil => rfl
  | cons c rest ih => simp [apply_changes, ih]

/-- Helper: a pair whose rename failed leaves the filesystem unchanged. -/
theorem apply_step_failed_fst (fs : List String) (p : String × String) (e : String)
    (h : (apply_step fs p).2 = FileOutcome.rename_failed e) :
    (apply_step fs p).1 = fs := by
  unfold apply_step at h ⊢
  by_cases hd : p.2 ∈ fs
  · simp [hd] at h
  · simp only [hd, if_false] at h ⊢
    cases hr : rename_fs fs p.1 p.2 with
    | ok fs2 => rw [hr] at h; simp at h
    | error err => rfl

/-- C8: the engine attempts every pair exactly once, in list order (one
outcome per pair), and a rename failure on a pair leaves the filesystem
unchanged and never prevents the remaining pairs from being processed; there
is no retry and no rollback of earlier successes. -/
theorem c8_failure_continues (fs : List String) (changes : List (String × String))
    (p : String × String) (rest : List (String × String)) (e : String) :
    (apply_changes fs changes).2.length = changes.length ∧
    ((apply_step fs p).2 = FileOutcome.rename_failed e →
      apply_changes fs (p :: rest) =
        ((apply_changes fs rest).1,
          FileOutcome.rename_failed e :: (apply_changes fs rest).2)) := by
  refine ⟨apply_changes_length fs changes, ?_⟩
  intro h
  have hfst := apply_step_failed_fst fs p e h
  simp [apply_changes, hfst, h]

/-- C8 (witness): a failing first pair (missing source /r/x) is reported and
the second pair is still renamed; two pairs, two outcomes. -/
theorem c8_failure_continues_witness :
    (apply_step ["/r/a"] ("/r/x", "/r/y")).2 =
      FileOutcome.rename_failed "No such file or directory" ∧
    apply_changes ["/r/a"] [("/r/x", "/r/y"), ("/r/a", "/r/b")] =
      (["/r/b"], [FileOutcome.rename_failed "No such file or directory",
        FileOutcome.renamed_ok]) ∧
    (apply_changes ["/r/a"] [("/r/x", "/r/y"), ("/r/a", "/r/b")]).2.length = 2 := by
  have h := c8_failure_continues ["/r/a"] [("/r/x", "/r/y"), ("/r/a", "/r/b")]
    ("/r/x", "/r/y") [("/r/a", "/r/b")] "No such file or directory"
  refine ⟨by decide, ?_, h.1⟩
  rw [h.2 (by decide)]
  decide

/-- C4 (counterexample): the transformation regex matches nothing (is_match
is constantly false, on the root-relative string under either reading), yet
at base path "/p" the pair for source "/p/p/x" is not (source, source): the
planner deletes both occurrences of "/p", producing destination "/p/x". -/
theorem c4_no_match_counterexample :
    never_match.is_match (rust_replace "/p/p/x" "/p" "") = false ∧
    never_match.is_match (strip_root_once "/p/p/x" "/p") = false ∧
    get_change_pairs ["/p/p/x"] "/p" never_match "z" ≠ [("/p/p/x", "/p/p/x")] := by
  refine ⟨rfl, rfl, by decide⟩

/-- C4 (amended): for every matched entry whose relative string (the source
path with every occurrence of the base path deleted) has no match of the
transformation pattern, and for which re-prepending the base path to that
relative string recovers the source path (as when the base path occurs in
the source only as its leading prefix), the planner produces the pair
(source, source). -/
theorem c4_no_match_unchanged (r : Regex) (base repl path : String)
    (paths : List String) (hwf : Regex.Wf r) (hmem : path ∈ paths)
    (hno : r.is_match (rust_replace path base "") = false)
    (hroot : base ++ rust_replace path base "" = path) :
    (path, path) ∈ get_change_pairs paths base r repl := by
  unfold get_change_pairs
  refine List.mem_map.mpr ⟨path, hmem, ?_⟩
  show (path, base ++ r.replace_all (rust_replace path base "") repl) = (path, path)
  rw [hwf _ _ hno, hroot]

/-- C4 (witness): the unchanged-pair property at source "/p/a" under base
path "/p" with the never-matching regex. -/
theorem c4_no_match_unchanged_witness :
    Regex.Wf never_match ∧
    "/p/a" ∈ (["/p/a"] : List String) ∧
    never_match.is_match (rust_replace "/p/a" "/p" "") = false ∧
    "/p" ++ rust_replace "/p/a" "/p" "" = "/p/a" ∧
    ("/p/a", "/p/a") ∈ get_change_pairs ["/p/a"] "/p" never_match "z" :=
  ⟨fun _ _ _ => rfl, by decide, rfl, by decide,
    c4_no_match_unchanged never_match "/p" "z" "/p/a" ["/p/a"]
      (fun _ _ _ => rfl) (by decide) rfl (by decide)⟩

/-- C7 (counterexample): an Ok entry whose path is not valid UTF-8 aborts
the matching pass (the to_str unwrap panics), while an Err entry does not;
so enumeration does abort on an entry the filesystem can yield. -/
theorem c7_non_utf8_counterexample :
    aborts (get_matched_paths [Except.ok (OsPath.non_utf8 0)] match_all) = true ∧
    aborts (get_matched_paths [Except.error "permission denied"] match_all) = false := by
  refine ⟨rfl, rfl⟩

/-- C7 (amended): on any entry sequence in which every successfully read
entry has a valid UTF-8 path, the matching pass never aborts: it returns
exactly the readable matching paths, and every unreadable (Err) entry is
reported to the error channel and excluded from the output. -/
theorem c7_bad_entries_skipped (entries : List (Except String OsPath)) (r : Regex)
    (h : entries.all entry_utf8_ok = true) :
    get_matched_paths entries r =
      Except.ok (entries.filterMap (entry_match r), entries.filterMap entry_error) := by
  induction entries with
  | nil => rfl
  | cons e rest ih =>
    rw [List.all_cons, Bool.and_eq_true] at h
    obtain ⟨he, hrest⟩ := h
    cases e with
    | error msg =>
      simp [get_matched_paths, ih hrest, List.filterMap_cons, entry_match, entry_error]
    | ok p =>
      cases p with
      | utf8 s =>
        by_cases hm : r.is_match s
        · simp [get_matched_paths, OsPath.to_str, ih hrest, List.filterMap_cons,
            entry_match, entry_error, hm]
        · simp [get_matched_paths, OsPath.to_str, ih hrest, List.filterMap_cons,
            entry_match, entry_error, hm]
      | non_utf8 t =>
        simp [entry_utf8_ok, OsPath.to_str] at he

/-- C7 (witness): one unreadable entry and one readable matching entry: the
error is reported, the entry is excluded, and the pass completes. -/
theorem c7_bad_entries_skipped_witness :
    ([Except.error "permission denied", Except.ok (OsPath.utf8 "/p/a.jpeg")].all
      entry_utf8_ok) = true ∧
    get_matched_paths [Except.error "permission denied",
        Except.ok (OsPath.utf8 "/p/a.jpeg")] match_all =
      Except.ok ([OsPath.utf8 "/p/a.jpeg"], ["permission denied"]) := by
  have h := c7_bad_entries_skipped
    [Except.error "permission denied", Except.ok (OsPath.utf8 "/p/a.jpeg")]
    match_all (by decide)
  exact ⟨by decide, by rw [h]; rfl⟩

end Renamer
